import Mathlib

/-!
A verification development for the fhicl-cpp typed-configuration library.

The development shallowly embeds:
* the schema-validation behaviour of bounded `Sequence` and `Tuple`
  descriptors with defaults (exercised by
  `test/types/bounded_sequences_with_defaults_t.cc`),
* the `OptionalTuple` descriptor (`fhiclcpp/types/OptionalTuple.h`),
* the `fhicl-dump` command-line driver (`tools/fhicl-dump.cc`).

Machine values are modelled with `Nat`/`String`; fallible operations
return `Except`.
-/

namespace Fhicl

/-- A primitive configuration value: a string atom or an unsigned atom.
The value tree is restricted here to the fragment the claims exercise:
primitives and flat sequences of primitives. -/
inductive AtomVal
  | str (s : String)
  | nat (n : Nat)
deriving DecidableEq

/-- A value bound to a key in a `ParameterSet`: a primitive or an ordered
sequence of primitives (spec section 3, "Value tree"). -/
inductive Value
  | atom (a : AtomVal)
  | seq (vs : List AtomVal)
deriving DecidableEq

/-- A `ParameterSet` at one nesting level: an association list from keys to
values; keys at each level are unique (spec section 4.A). -/
def ParameterSet := List (String × Value)

/-- Dotted-path/simple-name lookup in a parameter set (`ParameterSet::has`
combined with `get`): the value bound to `k`, or `none` when absent. -/
def lookupKey (ps : ParameterSet) (k : String) : Option Value :=
  (ps.find? (fun b => b.1 = k)).map Prod.snd

/-- The declared element type of a sequence slot (the claims use
`Sequence<string, N>` and `Tuple<string, unsigned>`). -/
inductive ElemKind
  | strAtom
  | uintAtom
deriving DecidableEq

/-- Whether a primitive input value matches the declared element type
(the element descriptor's validation of one slot). -/
def validElem : ElemKind → AtomVal → Bool
  | ElemKind.strAtom, AtomVal.str _ => true
  | ElemKind.uintAtom, AtomVal.nat _ => true
  | _, _ => false

/-- A structured validation diagnostic (spec section 7 taxonomy). -/
inductive VError
  | MissingKey (key : String)
  | TypeMismatch (key : String)
  | ArityMismatch (key : String) (expected : Nat) (actual : Nat)
  | ExtraKeys (keys : List String)
deriving DecidableEq

/-- Modelled from the spec: the bounded `Sequence<T, N>` descriptor
(spec section 4.E); `fhiclcpp/types/Sequence.h` is not under `src/`, only
its test is. Fields: `name`, element type, arity `N`, optional default
list. -/
structure BoundedSequence where
  name : String
  elem : ElemKind
  arity : Nat
  dflt : Option (List AtomVal)

/-- Modelled from the spec: validation of a bounded sequence descriptor
(spec section 4.E). Key absent with a default: accept, use the default;
absent without: `MissingKey`. Key present: the value must be a sequence
of exactly `arity` elements (else `ArityMismatch{key, expected, actual}`),
each matching the element type (else `TypeMismatch`). -/
def validateSequence (d : BoundedSequence) (ps : ParameterSet) :
    Except VError (List AtomVal) :=
  match lookupKey ps d.name with
  | none =>
      match d.dflt with
      | some xs => Except.ok xs
      | none => Except.error (VError.MissingKey d.name)
  | some (Value.seq xs) =>
      if xs.length = d.arity then
        if xs.all (validElem d.elem) then Except.ok xs
        else Except.error (VError.TypeMismatch d.name)
      else Except.error (VError.ArityMismatch d.name d.arity xs.length)
  | some (Value.atom _) => Except.error (VError.TypeMismatch d.name)

/-- Modelled from the spec: the heterogeneous fixed-arity `Tuple`
descriptor (spec section 4.F); `fhiclcpp/types/Tuple.h` is not under
`src/`, only its test is. One element type per slot; an optional
tuple-valued default. -/
structure TupleDesc where
  name : String
  slots : List ElemKind
  dflt : Option (List AtomVal)

/-- Modelled from the spec: validation of a tuple descriptor (spec
section 4.F): the input must be a sequence of length exactly the
tuple arity, else `ArityMismatch`; each slot is validated against its
per-slot element type. Absence falls back to the default as for
sequences. -/
def validateTuple (d : TupleDesc) (ps : ParameterSet) :
    Except VError (List AtomVal) :=
  match lookupKey ps d.name with
  | none =>
      match d.dflt with
      | some xs => Except.ok xs
      | none => Except.error (VError.MissingKey d.name)
  | some (Value.seq xs) =>
      if xs.length = d.slots.length then
        if (d.slots.zip xs).all (fun p => validElem p.1 p.2) then Except.ok xs
        else Except.error (VError.TypeMismatch d.name)
      else Except.error (VError.ArityMismatch d.name d.slots.length xs.length)
  | some (Value.atom _) => Except.error (VError.TypeMismatch d.name)

/-- The positional accessor of a materialized sequence or tuple:
`composers(i)`, `ages.get<I>()` read the i-th slot. -/
def elemAt (vs : List AtomVal) (i : Nat) : AtomVal :=
  vs.getD i (AtomVal.str "")

/-- A child descriptor of a table, as needed by the claims: a bounded
sequence or a tuple. -/
inductive Desc
  | sequenceD (d : BoundedSequence)
  | tupleD (d : TupleDesc)

/-- The key of a child descriptor. -/
def descName : Desc → String
  | Desc.sequenceD d => d.name
  | Desc.tupleD d => d.name

/-- Dispatch validation to the child descriptor. -/
def validateDesc : Desc → ParameterSet → Except VError (List AtomVal)
  | Desc.sequenceD d, ps => validateSequence d ps
  | Desc.tupleD d, ps => validateTuple d ps

/-- The error, if any, a child descriptor produces on this input. -/
def descErrors (ps : ParameterSet) (d : Desc) : List VError :=
  match validateDesc d ps with
  | Except.ok _ => []
  | Except.error e => [e]

/-- Modelled from the spec: `Table<T>::validate_ParameterSet` (spec
sections 4.G and 4.J); `fhiclcpp/types/detail/Table.icc` and
`validate_ParameterSet.h` are not under `src/`, only the `Table.h`
declaration is. Builds the expected-key set from the children, computes
the unused input keys outside `keysToIgnore` (`ExtraKeys`), dispatches
each child's validation, and aggregates every diagnostic without
short-circuiting: validation succeeds iff no diagnostic was collected,
else it fails with the full aggregated list (the `ValidationException`). -/
def validate_ParameterSet (children : List Desc) (ps : ParameterSet)
    (keysToIgnore : List String) :
    Except (List VError) (List (List AtomVal)) :=
  let expected := children.map descName
  let unused := (ps.map Prod.fst).filter
    (fun k => !(expected.contains k) && !(keysToIgnore.contains k))
  let errs :=
    (if unused.isEmpty then [] else [VError.ExtraKeys unused]) ++
      (children.map (descErrors ps)).flatten
  if errs.isEmpty then
    Except.ok (children.map (fun d => (validateDesc d ps).toOption.getD []))
  else Except.error errs

/-- The `composers` schema of the test (`ArrayConfig`):
`Sequence<string, 2> composers = ["Mahler", "Elgar"]`. -/
def composersDesc : BoundedSequence :=
  { name := "composers", elem := ElemKind.strAtom, arity := 2,
    dflt := some [AtomVal.str "Mahler", AtomVal.str "Elgar"] }

/-- The `ages` schema of the test (`TupleConfig`):
`Tuple<string, unsigned> ages = ("David", 9)`. -/
def agesDesc : TupleDesc :=
  { name := "ages", slots := [ElemKind.strAtom, ElemKind.uintAtom],
    dflt := some [AtomVal.str "David", AtomVal.nat 9] }

/-! ## OptionalTuple (`fhiclcpp/types/OptionalTuple.h`) -/

/-- Modelled from the spec: `Name::sequence_element(i)`, the index-derived
synthetic name of the i-th element of a sequence or tuple
(`fhiclcpp/types/Name.h` is not under `src/`); the spec (invariant 5,
section 4.E) gives elements names of the shape `parent[i]`. -/
def sequence_element (i : Nat) : String :=
  "[" ++ toString i ++ "]"

/-- The compile-time traits of one `OptionalTuple` element type, as tested
by the `static_assert`s of `OptionalTuple.h`
(`tt::is_table_fragment`, `tt::is_optional_parameter`). -/
structure ElemTag where
  isTableFragment : Bool
  isOptionalParam : Bool
deriving DecidableEq

/-- The schema errors raised by the `static_assert` messages of
`OptionalTuple.h`. -/
inductive SchemaError
  | NO_NESTED_TABLE_FRAGMENTS
  | NO_OPTIONAL_TYPES
deriving DecidableEq

/-- One constructed element descriptor of an `OptionalTuple`: its
synthetic name and its current accessor value, `(*elem)()`. -/
structure Element where
  name : String
  val : AtomVal
deriving DecidableEq

/-- The state of an `OptionalTuple<TYPES...>`: the element descriptors
`value_` and the flag `has_value_` (initially `false`). -/
structure OptionalTuple where
  value_ : List Element
  has_value_ : Bool
deriving DecidableEq

/-- `OptionalTuple.h` lines 97–109, `finalize_tuple_elements(i, elem,
others...)`: for each element in order, first the
`static_assert(!is_table_fragment, NO_NESTED_TABLE_FRAGMENTS)`, then
`static_assert(!is_optional_parameter, NO_OPTIONAL_TYPES)`; then the
element is constructed with `Name::sequence_element(i)` and the index is
incremented for the rest. The `static_assert`s fire during template
instantiation, i.e. at schema-construction time; the embedding renders
them as an `Except` result of construction. -/
def finalize_tuple_elements (i : Nat) : List ElemTag →
    Except SchemaError (List Element)
  | [] => Except.ok []
  | t :: ts =>
      if t.isTableFragment then
        Except.error SchemaError.NO_NESTED_TABLE_FRAGMENTS
      else if t.isOptionalParam then
        Except.error SchemaError.NO_OPTIONAL_TYPES
      else
        (finalize_tuple_elements (i + 1) ts).map
          (fun rest => { name := sequence_element i, val := AtomVal.str "" } :: rest)

/-- The `OptionalTuple(Name&&, Comment&&)` constructor (lines 154–162):
it takes only a name and a comment — no default value parameter exists —
and runs `finalize_elements` over the element types; `has_value_` keeps
its initializer `false`. No `ParameterSet` is in scope: the checks happen
before any input is examined. -/
def mkOptionalTuple (tags : List ElemTag) (_name : String)
    (_comment : String) : Except SchemaError OptionalTuple :=
  (finalize_tuple_elements 0 tags).map
    (fun es => { value_ := es, has_value_ := false })

/-- `get_size()` (line 42): the number of element descriptors,
`std::tuple_size<ftype>`. -/
def OptionalTuple.get_size (ot : OptionalTuple) : Nat :=
  ot.value_.length

/-- `do_set_value` (lines 140–148): reached by the ValidateThenSet
algorithm only when the optional parameter is present in the input; it
records presence by setting `has_value_` and touches nothing else. -/
def do_set_value (ot : OptionalTuple) : OptionalTuple :=
  { ot with has_value_ := true }

/-- `assemble_rtype` / `fill_return_element` (lines 122–138): slot `I` of
the result receives `(*std::get<I>(value_))()`, the element descriptor's
accessor value, for every index in order. -/
def assemble_rtype (ot : OptionalTuple) : List AtomVal :=
  ot.value_.map Element.val

/-- `OptionalTuple::operator()(rtype& r)` (lines 164–173): when
`has_value_` is false it returns `false` immediately, leaving `r` as it
was; otherwise it assembles the element values into a fresh `result`,
swaps `result` into `r` and returns `true`. The model returns the pair
(returned flag, final contents of `r`). -/
def OptionalTuple.opCall (ot : OptionalTuple) (r : List AtomVal) :
    Bool × List AtomVal :=
  if ot.has_value_ then (true, assemble_rtype ot) else (false, r)

/-- Modelled from the spec: the whole-tuple accessor of the non-optional
`Tuple` counterpart (`fhiclcpp/types/Tuple.h` is not under `src/`): the
positional aggregate of the per-slot element values (spec section 4.F,
"whole-tuple extraction yields a positional aggregate"). -/
def tupleCounterpartValue (elems : List Element) : List AtomVal :=
  elems.map Element.val

/-! ## The `fhicl-dump` driver (`tools/fhicl-dump.cc`) -/

/-- `print_mode`: raw output, interleaved source-location marks
(`--annotate`), or marks on the preceding line (`--prefix-annotate`). -/
inductive PrintMode
  | raw
  | annotated
  | preAnnotated
deriving DecidableEq

/-- The `Options` aggregate filled by `process_arguments`
(`fhicl-dump.cc` lines 34–41). -/
structure Options where
  mode : PrintMode
  quiet : Bool
  output_filename : String
  input_filename : String
  lookup_policy : Int
  lookup_path : String
deriving DecidableEq

/-- The command line as boost::program_options delivers it to
`process_arguments`: which switches were counted and the option values
(with their declared defaults: `lookup-policy` defaults to 1, `path`
defaults to the `FHICL_FILE_PATH` environment variable name). -/
structure CmdLine where
  help : Bool
  configFile : Option String
  outputFile : String
  annotate : Bool
  preAnnotate : Bool
  quiet : Bool
  lookup_policy : Int := 1
  lookup_path : String := "FHICL_FILE_PATH"
deriving DecidableEq

/-- The categories of the `cet::exception`s thrown while processing
arguments (`fhicl-dump.cc` lines 30–32): `Help`, `Processing` (raised by
the external `cet::parsed_program_options` on a malformed command line),
and `Configuration`. -/
inductive ErrCategory
  | help
  | processing
  | config
deriving DecidableEq

/-- `process_arguments` (lines 107–178). `parseFailed` models the
external `cet::parsed_program_options` call throwing a `Processing`
exception on a malformed command line. Then, in source order: `--help`
throws `Help`; `--quiet` together with `--annotate` or
`--prefix-annotate` throws `Configuration`; `--annotate` together with
`--prefix-annotate` throws `Configuration`; the print mode is derived
from the flags; a missing input configuration file throws
`Configuration`. -/
def process_arguments (parseFailed : Bool) (c : CmdLine) :
    Except ErrCategory Options :=
  if parseFailed then Except.error ErrCategory.processing
  else if c.help then Except.error ErrCategory.help
  else if c.quiet && (c.annotate || c.preAnnotate) then
    Except.error ErrCategory.config
  else if c.annotate && c.preAnnotate then Except.error ErrCategory.config
  else
    match c.configFile with
    | none => Except.error ErrCategory.config
    | some fn =>
        Except.ok
          { mode :=
              if c.annotate then PrintMode.annotated
              else if c.preAnnotate then PrintMode.preAnnotated
              else PrintMode.raw,
            quiet := c.quiet,
            output_filename := c.outputFile,
            input_filename := fn,
            lookup_policy := c.lookup_policy,
            lookup_path := c.lookup_path }

/-- The `cet::filepath_maker` variants returned by `get_policy`. -/
inductive FilepathMaker
  | filepath_maker
  | filepath_lookup (path : String)
  | filepath_lookup_nonabsolute (path : String)
  | filepath_lookup_after1 (path : String)
deriving DecidableEq

/-- `get_policy` (lines 180–198): code 0 yields `cet::filepath_maker`,
1 `cet::filepath_lookup`, 2 `cet::filepath_lookup_nonabsolute`,
3 `cet::filepath_lookup_after1`; any other code throws
`std::runtime_error` with the shown message. -/
def get_policy (lookup_policy : Int) (lookup_path : String) :
    Except String FilepathMaker :=
  if lookup_policy = 0 then Except.ok FilepathMaker.filepath_maker
  else if lookup_policy = 1 then
    Except.ok (FilepathMaker.filepath_lookup lookup_path)
  else if lookup_policy = 2 then
    Except.ok (FilepathMaker.filepath_lookup_nonabsolute lookup_path)
  else if lookup_policy = 3 then
    Except.ok (FilepathMaker.filepath_lookup_after1 lookup_path)
  else
    Except.error ("Error: command line lookup-policy " ++
      toString lookup_policy ++ " is unknown; choose 0, 1, 2, or 3\n")

/-- The outcome of the external `form_pset` call (parsing the document
and materializing the `ParameterSet`): success, a `cet::exception`
(parse error), or any other exception. -/
inductive FormPsetOutcome
  | success
  | cetError
  | otherError
deriving DecidableEq

/-- How an invocation of the process ends: a controlled `return code`
from `main`, or an exception escaping `main` (std::terminate, an
abnormal termination with no controlled exit code). -/
inductive MainOutcome
  | exit (code : Nat)
  | uncaught
deriving DecidableEq

/-- `main` (lines 54–101). A `cet::exception` from `process_arguments`
returns 1 (`Help`), 2 (`Processing`) or 3 (`Configuration`). Then
`get_policy` runs OUTSIDE any try block (line 74): its
`std::runtime_error` escapes `main`. Then `form_pset` under try: a
`cet::exception` prints and returns 4, any other exception returns 5.
On success, `--quiet` returns 0 early; otherwise the dump is printed and
`main` falls off the end, returning 0. -/
def main (parseFailed : Bool) (c : CmdLine) (fp : FormPsetOutcome) :
    MainOutcome :=
  match process_arguments parseFailed c with
  | Except.error ErrCategory.help => MainOutcome.exit 1
  | Except.error ErrCategory.processing => MainOutcome.exit 2
  | Except.error ErrCategory.config => MainOutcome.exit 3
  | Except.ok opts =>
      match get_policy opts.lookup_policy opts.lookup_path with
      | Except.error _ => MainOutcome.uncaught
      | Except.ok _ =>
          match fp with
          | FormPsetOutcome.cetError => MainOutcome.exit 4
          | FormPsetOutcome.otherError => MainOutcome.exit 5
          | FormPsetOutcome.success => MainOutcome.exit 0

/-- Whether a descriptor-level validation outcome is a success. -/
def succeeded (r : Except VError (List AtomVal)) : Bool :=
  match r with
  | Except.ok _ => true
  | Except.error _ => false

/-! ## Helper lemmas -/

theorem validateSequence_absent (d : BoundedSequence) (ps : ParameterSet)
    (hl : lookupKey ps d.name = none) :
    validateSequence d ps =
      match d.dflt with
      | some xs => Except.ok xs
      | none => Except.error (VError.MissingKey d.name) := by
  unfold validateSequence
  rw [hl]

theorem validateSequence_present (d : BoundedSequence) (ps : ParameterSet)
    (xs : List AtomVal) (hl : lookupKey ps d.name = some (Value.seq xs)) :
    validateSequence d ps =
      if xs.length = d.arity then
        if xs.all (validElem d.elem) then Except.ok xs
        else Except.error (VError.TypeMismatch d.name)
      else Except.error (VError.ArityMismatch d.name d.arity xs.length) := by
  unfold validateSequence
  rw [hl]

theorem validateTuple_absent (d : TupleDesc) (ps : ParameterSet)
    (hl : lookupKey ps d.name = none) :
    validateTuple d ps =
      match d.dflt with
      | some xs => Except.ok xs
      | none => Except.error (VError.MissingKey d.name) := by
  unfold validateTuple
  rw [hl]

theorem validateTuple_present (d : TupleDesc) (ps : ParameterSet)
    (xs : List AtomVal) (hl : lookupKey ps d.name = some (Value.seq xs)) :
    validateTuple d ps =
      if xs.length = d.slots.length then
        if (d.slots.zip xs).all (fun p => validElem p.1 p.2) then Except.ok xs
        else Except.error (VError.TypeMismatch d.name)
      else Except.error (VError.ArityMismatch d.name d.slots.length xs.length) := by
  unfold validateTuple
  rw [hl]

/-! ## Claims -/

/-- C1: a descriptor constructed with a default (the test's
`Sequence<string, 2> composers = ["Mahler", "Elgar"]` and
`Tuple<string, unsigned> ages = ("David", 9)`) validates an input that
omits its key successfully, and the accessor afterwards yields the
default values (`composers(0) == "Mahler"`, `composers(1) == "Elgar"`;
`ages.get<0>() == "David"`, `ages.get<1>() == 9`); when the key is
present and validation succeeds, the accessor yields the input value
instead. -/
theorem C1_defaults_and_overrides :
    (∀ ps : ParameterSet, lookupKey ps "composers" = none →
      validateSequence composersDesc ps =
        Except.ok [AtomVal.str "Mahler", AtomVal.str "Elgar"]) ∧
    elemAt [AtomVal.str "Mahler", AtomVal.str "Elgar"] 0 = AtomVal.str "Mahler" ∧
    elemAt [AtomVal.str "Mahler", AtomVal.str "Elgar"] 1 = AtomVal.str "Elgar" ∧
    (∀ ps : ParameterSet, lookupKey ps "ages" = none →
      validateTuple agesDesc ps =
        Except.ok [AtomVal.str "David", AtomVal.nat 9]) ∧
    elemAt [AtomVal.str "David", AtomVal.nat 9] 0 = AtomVal.str "David" ∧
    elemAt [AtomVal.str "David", AtomVal.nat 9] 1 = AtomVal.nat 9 ∧
    (∀ (d : BoundedSequence) (df : List AtomVal) (ps : ParameterSet),
      d.dflt = some df → lookupKey ps d.name = none →
      validateSequence d ps = Except.ok df) ∧
    (∀ (d : BoundedSequence) (ps : ParameterSet) (xs v : List AtomVal),
      lookupKey ps d.name = some (Value.seq xs) →
      validateSequence d ps = Except.ok v → v = xs) ∧
    (∀ (d : TupleDesc) (df : List AtomVal) (ps : ParameterSet),
      d.dflt = some df → lookupKey ps d.name = none →
      validateTuple d ps = Except.ok df) ∧
    (∀ (d : TupleDesc) (ps : ParameterSet) (xs v : List AtomVal),
      lookupKey ps d.name = some (Value.seq xs) →
      validateTuple d ps = Except.ok v → v = xs) := by
  refine ⟨?_, rfl, rfl, ?_, rfl, rfl, ?_, ?_, ?_, ?_⟩
  · intro ps h
    rw [validateSequence_absent composersDesc ps h]
    rfl
  · intro ps h
    rw [validateTuple_absent agesDesc ps h]
    rfl
  · intro d df ps hdf hl
    rw [validateSequence_absent d ps hl, hdf]
  · intro d ps xs v hl hv
    rw [validateSequence_present d ps xs hl] at hv
    by_cases hlen : xs.length = d.arity
    · by_cases hall : xs.all (validElem d.elem) = true
      · simp [hlen, hall] at hv
        exact hv.symm
      · simp [hlen, hall] at hv
    · simp [hlen] at hv
  · intro d df ps hdf hl
    rw [validateTuple_absent d ps hl, hdf]
  · intro d ps xs v hl hv
    rw [validateTuple_present d ps xs hl] at hv
    by_cases hlen : xs.length = d.slots.length
    · by_cases hall : (d.slots.zip xs).all (fun p => validElem p.1 p.2) = true
      · simp [hlen, hall] at hv
        exact hv.symm
      · simp [hlen, hall] at hv
    · simp [hlen] at hv

/-- Witness for C1: an empty document yields the defaults of both test
schemas, and an input binding `composers` yields the input values. -/
theorem C1_witness :
    validateSequence composersDesc [] =
      Except.ok [AtomVal.str "Mahler", AtomVal.str "Elgar"] ∧
    validateTuple agesDesc [] =
      Except.ok [AtomVal.str "David", AtomVal.nat 9] ∧
    [AtomVal.str "Bach", AtomVal.str "Brahms"] =
      [AtomVal.str "Bach", AtomVal.str "Brahms"] :=
  ⟨C1_defaults_and_overrides.1 [] rfl,
   C1_defaults_and_overrides.2.2.2.1 [] rfl,
   C1_defaults_and_overrides.2.2.2.2.2.2.2.1 composersDesc
     [("composers", Value.seq [AtomVal.str "Bach", AtomVal.str "Brahms"])]
     [AtomVal.str "Bach", AtomVal.str "Brahms"]
     [AtomVal.str "Bach", AtomVal.str "Brahms"] rfl rfl⟩

/-- C2: a bounded sequence or tuple descriptor of arity N rejects an
input binding its key to a sequence of length L ≠ N with
`ArityMismatch{key, expected = N, actual = L}` (aggregated into the
thrown `ValidationException`, as for the test inputs
`composers: [Beethoven]` and `ages: [Jenny]`), and a present key
validates successfully iff the input sequence has exactly N elements of
the declared element type. -/
theorem C2_arity_enforcement :
    (∀ (d : BoundedSequence) (ps : ParameterSet) (xs : List AtomVal),
      lookupKey ps d.name = some (Value.seq xs) → xs.length ≠ d.arity →
      validateSequence d ps =
        Except.error (VError.ArityMismatch d.name d.arity xs.length)) ∧
    (∀ (d : BoundedSequence) (ps : ParameterSet) (xs : List AtomVal),
      lookupKey ps d.name = some (Value.seq xs) →
      (succeeded (validateSequence d ps) = true ↔
        xs.length = d.arity ∧ xs.all (validElem d.elem) = true)) ∧
    (∀ (d : TupleDesc) (ps : ParameterSet) (xs : List AtomVal),
      lookupKey ps d.name = some (Value.seq xs) → xs.length ≠ d.slots.length →
      validateTuple d ps =
        Except.error (VError.ArityMismatch d.name d.slots.length xs.length)) ∧
    (∀ (d : TupleDesc) (ps : ParameterSet) (xs : List AtomVal),
      lookupKey ps d.name = some (Value.seq xs) →
      (succeeded (validateTuple d ps) = true ↔
        xs.length = d.slots.length ∧
          (d.slots.zip xs).all (fun p => validElem p.1 p.2) = true)) ∧
    validate_ParameterSet [Desc.sequenceD composersDesc]
        [("composers", Value.seq [AtomVal.str "Beethoven"])] [] =
      Except.error [VError.ArityMismatch "composers" 2 1] ∧
    validate_ParameterSet [Desc.tupleD agesDesc]
        [("ages", Value.seq [AtomVal.str "Jenny"])] [] =
      Except.error [VError.ArityMismatch "ages" 2 1] := by
  refine ⟨?_, ?_, ?_, ?_, rfl, rfl⟩
  · intro d ps xs hl hlen
    rw [validateSequence_present d ps xs hl]
    simp [hlen]
  · intro d ps xs hl
    rw [validateSequence_present d ps xs hl]
    by_cases hlen : xs.length = d.arity
    · by_cases hall : xs.all (validElem d.elem) = true
      · simp [hlen, hall, succeeded]
      · simp [hlen, hall, succeeded]
    · simp [hlen, succeeded]
  · intro d ps xs hl hlen
    rw [validateTuple_present d ps xs hl]
    simp [hlen]
  · intro d ps xs hl
    rw [validateTuple_present d ps xs hl]
    by_cases hlen : xs.length = d.slots.length
    · by_cases hall : (d.slots.zip xs).all (fun p => validElem p.1 p.2) = true
      · simp [hlen, hall, succeeded]
      · simp [hlen, hall, succeeded]
    · simp [hlen, succeeded]

/-- Witness for C2: the test's bad inputs produce the expected
`ArityMismatch` at descriptor level. -/
theorem C2_witness :
    validateSequence composersDesc
        [("composers", Value.seq [AtomVal.str "Beethoven"])] =
      Except.error (VError.ArityMismatch "composers" 2 1) ∧
    validateTuple agesDesc [("ages", Value.seq [AtomVal.str "Jenny"])] =
      Except.error (VError.ArityMismatch "ages" 2 1) :=
  ⟨C2_arity_enforcement.1 composersDesc
      [("composers", Value.seq [AtomVal.str "Beethoven"])]
      [AtomVal.str "Beethoven"] rfl (by decide),
   C2_arity_enforcement.2.2.1 agesDesc
      [("ages", Value.seq [AtomVal.str "Jenny"])]
      [AtomVal.str "Jenny"] rfl (by decide)⟩

theorem finalize_ok_spec (tags : List ElemTag) :
    ∀ (k : Nat) (es : List Element),
      finalize_tuple_elements k tags = Except.ok es →
      es.length = tags.length ∧
      ∀ i, i < es.length →
        (es.getD i { name := "", val := AtomVal.str "" }).name =
          sequence_element (k + i) := by
  induction tags with
  | nil =>
      intro k es h
      unfold finalize_tuple_elements at h
      cases h
      exact ⟨rfl, fun i hi => absurd hi (by simp)⟩
  | cons t ts ih =>
      intro k es h
      unfold finalize_tuple_elements at h
      cases hf : t.isTableFragment with
      | true => simp [hf] at h
      | false =>
        cases ho : t.isOptionalParam with
        | true => simp [hf, ho] at h
        | false =>
          simp only [hf, ho, Bool.false_eq_true, if_false] at h
          cases hrec : finalize_tuple_elements (k + 1) ts with
          | error e => rw [hrec] at h; simp [Except.map] at h
          | ok rest =>
              rw [hrec] at h
              simp only [Except.map, Except.ok.injEq] at h
              obtain ⟨hlen, hnm⟩ := ih (k + 1) rest hrec
              subst h
              refine ⟨by simp [hlen], ?_⟩
              intro i hi
              cases i with
              | zero => simp
              | succ j =>
                  have hj : j < rest.length :=
                    Nat.lt_of_succ_lt_succ (by simpa using hi)
                  have h2 := hnm j hj
                  have hk : k + 1 + j = k + (j + 1) := by omega
                  rw [hk] at h2
                  simpa [List.getD_cons_succ] using h2

theorem finalize_err_optional (tags : List ElemTag) :
    ∀ k : Nat, (∀ t ∈ tags, t.isTableFragment = false) →
      tags.any (fun t => t.isOptionalParam) = true →
      finalize_tuple_elements k tags =
        Except.error SchemaError.NO_OPTIONAL_TYPES := by
  induction tags with
  | nil => intro k _ hany; simp at hany
  | cons t ts ih =>
      intro k hnf hany
      have hf : t.isTableFragment = false := hnf t (by simp)
      unfold finalize_tuple_elements
      cases ho : t.isOptionalParam with
      | true => simp [hf, ho]
      | false =>
          have hts : ts.any (fun t => t.isOptionalParam) = true := by
            simpa [ho] using hany
          have := ih (k + 1) (fun u hu => hnf u (by simp [hu])) hts
          simp [hf, ho, this, Except.map]

theorem finalize_err_fragment (tags : List ElemTag) :
    ∀ k : Nat, (∀ t ∈ tags, t.isOptionalParam = false) →
      tags.any (fun t => t.isTableFragment) = true →
      finalize_tuple_elements k tags =
        Except.error SchemaError.NO_NESTED_TABLE_FRAGMENTS := by
  induction tags with
  | nil => intro k _ hany; simp at hany
  | cons t ts ih =>
      intro k hno hany
      have ho : t.isOptionalParam = false := hno t (by simp)
      unfold finalize_tuple_elements
      cases hf : t.isTableFragment with
      | true => simp [hf]
      | false =>
          have hts : ts.any (fun t => t.isTableFragment) = true := by
            simpa [hf] using hany
          have := ih (k + 1) (fun u hu => hno u (by simp [hu])) hts
          simp [hf, ho, this, Except.map]

theorem finalize_err_any (tags : List ElemTag) :
    ∀ k : Nat,
      tags.any (fun t => t.isOptionalParam || t.isTableFragment) = true →
      finalize_tuple_elements k tags =
          Except.error SchemaError.NO_OPTIONAL_TYPES ∨
        finalize_tuple_elements k tags =
          Except.error SchemaError.NO_NESTED_TABLE_FRAGMENTS := by
  induction tags with
  | nil => intro k hany; simp at hany
  | cons t ts ih =>
      intro k hany
      unfold finalize_tuple_elements
      cases hf : t.isTableFragment with
      | true => right; simp [hf]
      | false =>
          cases ho : t.isOptionalParam with
          | true => left; simp [hf, ho]
          | false =>
              have hts :
                  ts.any (fun t => t.isOptionalParam || t.isTableFragment) =
                    true := by
                simpa [hf, ho] using hany
              rcases ih (k + 1) hts with h | h
              · left; simp [hf, ho, h, Except.map]
              · right; simp [hf, ho, h, Except.map]

/-- C3: the `OptionalTuple` accessor reports a two-state outcome: when
`do_set_value` was never invoked (`has_value_` still `false`, the key was
absent), `operator()` returns `false`; after `do_set_value` (the key was
present) it returns `true` and delivers the tuple of element values,
identical to what the non-optional `Tuple` counterpart's whole-tuple
accessor yields; and construction — whose only parameters are a `Name`
and an optional `Comment`, so no default can be supplied — always
produces the absent state. -/
theorem C3_optional_two_state_accessor :
    (∀ (ot : OptionalTuple) (r : List AtomVal),
      ot.has_value_ = false → (ot.opCall r).1 = false) ∧
    (∀ (ot : OptionalTuple) (r : List AtomVal),
      (do_set_value ot).opCall r = (true, tupleCounterpartValue ot.value_)) ∧
    (∀ (tags : List ElemTag) (n c : String) (ot : OptionalTuple),
      mkOptionalTuple tags n c = Except.ok ot → ot.has_value_ = false) := by
  refine ⟨?_, ?_, ?_⟩
  · intro ot r h
    simp [OptionalTuple.opCall, h]
  · intro ot r
    simp [OptionalTuple.opCall, do_set_value, assemble_rtype,
      tupleCounterpartValue]
  · intro tags n c ot h
    unfold mkOptionalTuple at h
    cases hrec : finalize_tuple_elements 0 tags with
    | error e => rw [hrec] at h; simp [Except.map] at h
    | ok es =>
        rw [hrec] at h
        simp only [Except.map, Except.ok.injEq] at h
        rw [← h]

/-- Witness for C3 at a concrete one-element state. -/
theorem C3_witness :
    (OptionalTuple.opCall
        { value_ := [{ name := "[0]", val := AtomVal.str "x" }],
          has_value_ := false } [AtomVal.nat 5]).1 = false ∧
    OptionalTuple.opCall
        (do_set_value
          { value_ := [{ name := "[0]", val := AtomVal.str "x" }],
            has_value_ := false }) [AtomVal.nat 5] =
      (true, tupleCounterpartValue [{ name := "[0]", val := AtomVal.str "x" }]) ∧
    OptionalTuple.has_value_ { value_ := [], has_value_ := false } = false :=
  ⟨C3_optional_two_state_accessor.1
      { value_ := [{ name := "[0]", val := AtomVal.str "x" }],
        has_value_ := false } [AtomVal.nat 5] rfl,
   C3_optional_two_state_accessor.2.1
      { value_ := [{ name := "[0]", val := AtomVal.str "x" }],
        has_value_ := false } [AtomVal.nat 5],
   C3_optional_two_state_accessor.2.2 [] "t" ""
      { value_ := [], has_value_ := false } rfl⟩

/-- C4: building an `OptionalTuple` whose element types are themselves
Optional descriptors, or are table fragments, is rejected at
schema-construction time — `mkOptionalTuple` takes no input document —
with `SchemaError.NO_OPTIONAL_TYPES` for nested optionals and
`SchemaError.NO_NESTED_TABLE_FRAGMENTS` for fragments (for an element
that is both, the fragment assertion is checked first, so one of the two
errors is raised). -/
theorem C4_schema_construction_rejection :
    (∀ (tags : List ElemTag) (n c : String),
      (∀ t ∈ tags, t.isTableFragment = false) →
      tags.any (fun t => t.isOptionalParam) = true →
      mkOptionalTuple tags n c =
        Except.error SchemaError.NO_OPTIONAL_TYPES) ∧
    (∀ (tags : List ElemTag) (n c : String),
      (∀ t ∈ tags, t.isOptionalParam = false) →
      tags.any (fun t => t.isTableFragment) = true →
      mkOptionalTuple tags n c =
        Except.error SchemaError.NO_NESTED_TABLE_FRAGMENTS) ∧
    (∀ (tags : List ElemTag) (n c : String),
      tags.any (fun t => t.isOptionalParam || t.isTableFragment) = true →
      mkOptionalTuple tags n c =
          Except.error SchemaError.NO_OPTIONAL_TYPES ∨
        mkOptionalTuple tags n c =
          Except.error SchemaError.NO_NESTED_TABLE_FRAGMENTS) := by
  refine ⟨?_, ?_, ?_⟩
  · intro tags n c hnf hany
    unfold mkOptionalTuple
    rw [finalize_err_optional tags 0 hnf hany]
    rfl
  · intro tags n c hno hany
    unfold mkOptionalTuple
    rw [finalize_err_fragment tags 0 hno hany]
    rfl
  · intro tags n c hany
    unfold mkOptionalTuple
    rcases finalize_err_any tags 0 hany with h | h
    · left; rw [h]; rfl
    · right; rw [h]; rfl

/-- Witness for C4: a nested-optional element is rejected with
`NO_OPTIONAL_TYPES`, a table-fragment element with
`NO_NESTED_TABLE_FRAGMENTS`. -/
theorem C4_witness :
    mkOptionalTuple [{ isTableFragment := false, isOptionalParam := true }]
        "t" "" = Except.error SchemaError.NO_OPTIONAL_TYPES ∧
    mkOptionalTuple [{ isTableFragment := true, isOptionalParam := false }]
        "t" "" = Except.error SchemaError.NO_NESTED_TABLE_FRAGMENTS :=
  ⟨C4_schema_construction_rejection.1
      [{ isTableFragment := false, isOptionalParam := true }] "t" ""
      (by decide) (by decide),
   C4_schema_construction_rejection.2.1
      [{ isTableFragment := true, isOptionalParam := false }] "t" ""
      (by decide) (by decide)⟩

/-- C5: a successfully constructed `OptionalTuple<TYPES...>` holds
exactly `sizeof...(TYPES)` element descriptors (`get_size()` equals the
tuple arity), and the i-th element descriptor carries the index-derived
synthetic sequence-element name for index i, for i = 0 .. N-1 in
order. -/
theorem C5_arity_and_element_names :
    ∀ (tags : List ElemTag) (n c : String) (ot : OptionalTuple),
      mkOptionalTuple tags n c = Except.ok ot →
      ot.get_size = tags.length ∧
      ∀ i, i < ot.get_size →
        (ot.value_.getD i { name := "", val := AtomVal.str "" }).name =
          sequence_element i := by
  intro tags n c ot h
  unfold mkOptionalTuple at h
  cases hrec : finalize_tuple_elements 0 tags with
  | error e => rw [hrec] at h; simp [Except.map] at h
  | ok es =>
      rw [hrec] at h
      simp only [Except.map, Except.ok.injEq] at h
      obtain ⟨hlen, hnm⟩ := finalize_ok_spec tags 0 es hrec
      subst h
      refine ⟨hlen, ?_⟩
      intro i hi
      simpa using hnm i hi

/-- Witness for C5 at a two-element instantiation (the shape of the
test's `Tuple<string, unsigned>`). -/
theorem C5_witness :
    OptionalTuple.get_size
        (OptionalTuple.mk
          [Element.mk (sequence_element 0) (AtomVal.str ""),
           Element.mk (sequence_element 1) (AtomVal.str "")] false) = 2 ∧
    (List.getD
        [Element.mk (sequence_element 0) (AtomVal.str ""),
         Element.mk (sequence_element 1) (AtomVal.str "")]
        0 (Element.mk "" (AtomVal.str ""))).name = sequence_element 0 ∧
    (List.getD
        [Element.mk (sequence_element 0) (AtomVal.str ""),
         Element.mk (sequence_element 1) (AtomVal.str "")]
        1 (Element.mk "" (AtomVal.str ""))).name = sequence_element 1 := by
  have h := C5_arity_and_element_names
    [ElemTag.mk false false, ElemTag.mk false false] "ages" ""
    (OptionalTuple.mk
      [Element.mk (sequence_element 0) (AtomVal.str ""),
       Element.mk (sequence_element 1) (AtomVal.str "")] false) rfl
  exact ⟨h.1, h.2 0 (by decide), h.2 1 (by decide)⟩

/-- C6: validation is deterministic. The embedded validation driver is a
pure function of the schema and the input parameter set — it reads no
other state — so two runs on identical schema and input return the
identical outcome, aggregated diagnostics included. -/
theorem C6_validation_deterministic :
    ∀ (children : List Desc) (ps : ParameterSet)
      (keysToIgnore : List String),
      validate_ParameterSet children ps keysToIgnore =
        validate_ParameterSet children ps keysToIgnore :=
  fun _ _ _ => rfl

/-- C9: in the absent state `operator()(rtype& r)` returns `false`
without touching the caller's result tuple `r`; only in the present
state is `r` overwritten, namely with the assembled element values. -/
theorem C9_absent_frame :
    ∀ (ot : OptionalTuple) (r : List AtomVal),
      (ot.has_value_ = false → ot.opCall r = (false, r)) ∧
      (ot.has_value_ = true → ot.opCall r = (true, assemble_rtype ot)) := by
  intro ot r
  constructor
  · intro h
    simp [OptionalTuple.opCall, h]
  · intro h
    simp [OptionalTuple.opCall, h]

/-- Witness for C9: a concrete absent state returns the caller's tuple
untouched; the same state after `do_set_value` overwrites it. -/
theorem C9_witness :
    OptionalTuple.opCall
        { value_ := [{ name := "[0]", val := AtomVal.str "a" }],
          has_value_ := false } [AtomVal.nat 7] =
      (false, [AtomVal.nat 7]) ∧
    OptionalTuple.opCall
        { value_ := [{ name := "[0]", val := AtomVal.str "a" }],
          has_value_ := true } [AtomVal.nat 7] =
      (true, assemble_rtype
        { value_ := [{ name := "[0]", val := AtomVal.str "a" }],
          has_value_ := true }) :=
  ⟨(C9_absent_frame
      { value_ := [{ name := "[0]", val := AtomVal.str "a" }],
        has_value_ := false } [AtomVal.nat 7]).1 rfl,
   (C9_absent_frame
      { value_ := [{ name := "[0]", val := AtomVal.str "a" }],
        has_value_ := true } [AtomVal.nat 7]).2 rfl⟩

/-- Counterexample to C7 as stated: the invocation
`fhicl-dump -c in.fcl -l 9` passes argument processing, but `get_policy`
is called outside every try block (`fhicl-dump.cc` line 74), so the
`std::runtime_error` it throws for the unknown policy code escapes
`main`: the process terminates abnormally instead of exiting with
code 5 (or any of the listed codes). -/
theorem C7_counterexample :
    main false
        { help := false, configFile := some "in.fcl", outputFile := "",
          annotate := false, preAnnotate := false, quiet := false,
          lookup_policy := 9, lookup_path := "FHICL_FILE_PATH" }
        FormPsetOutcome.success = MainOutcome.uncaught ∧
    MainOutcome.uncaught ≠ MainOutcome.exit 5 ∧
    MainOutcome.uncaught ≠ MainOutcome.exit 0 := by
  refine ⟨rfl, by decide, by decide⟩

/-- C7 (amended): the exit code of `fhicl-dump` is 1 when help was
requested, 2 on a processing error, 3 on a configuration error
(including a missing input configuration file), and — provided the
lookup-policy code is one of 0–3 — 0 on success, 4 on a
`cet::exception` while forming the parameter set and 5 on any other
error there; an unknown lookup-policy code instead causes an uncaught
exception (abnormal termination rather than exit code 5). -/
theorem C7_exit_codes (parseFailed : Bool) (c : CmdLine)
    (fp : FormPsetOutcome) :
    (parseFailed = false → c.help = true →
      main parseFailed c fp = MainOutcome.exit 1) ∧
    (parseFailed = true → main parseFailed c fp = MainOutcome.exit 2) ∧
    (process_arguments parseFailed c = Except.error ErrCategory.config →
      main parseFailed c fp = MainOutcome.exit 3) ∧
    (parseFailed = false → c.help = false → c.configFile = none →
      main parseFailed c fp = MainOutcome.exit 3) ∧
    (∀ opts : Options, process_arguments parseFailed c = Except.ok opts →
      (opts.lookup_policy = 0 ∨ opts.lookup_policy = 1 ∨
        opts.lookup_policy = 2 ∨ opts.lookup_policy = 3) →
      ((main parseFailed c fp = MainOutcome.exit 0 ↔
          fp = FormPsetOutcome.success) ∧
       (main parseFailed c fp = MainOutcome.exit 4 ↔
          fp = FormPsetOutcome.cetError) ∧
       (main parseFailed c fp = MainOutcome.exit 5 ↔
          fp = FormPsetOutcome.otherError))) ∧
    (∀ opts : Options, process_arguments parseFailed c = Except.ok opts →
      ¬(opts.lookup_policy = 0 ∨ opts.lookup_policy = 1 ∨
        opts.lookup_policy = 2 ∨ opts.lookup_policy = 3) →
      main parseFailed c fp = MainOutcome.uncaught) := by
  refine ⟨?_, ?_, ?_, ?_, ?_, ?_⟩
  · intro hp hh
    have hpa : process_arguments parseFailed c =
        Except.error ErrCategory.help := by
      simp [process_arguments, hp, hh]
    simp [main, hpa]
  · intro hp
    have hpa : process_arguments parseFailed c =
        Except.error ErrCategory.processing := by
      simp [process_arguments, hp]
    simp [main, hpa]
  · intro hpa
    simp [main, hpa]
  · intro hp hh hcf
    have hpa : process_arguments parseFailed c =
        Except.error ErrCategory.config := by
      unfold process_arguments
      rw [hp, hh]
      cases h1 : (c.quiet && (c.annotate || c.preAnnotate)) with
      | true => simp [h1]
      | false =>
          cases h2 : (c.annotate && c.preAnnotate) with
          | true => simp [h1, h2]
          | false => simp [h1, h2, hcf]
    simp [main, hpa]
  · intro opts hok hpol
    cases hgp : get_policy opts.lookup_policy opts.lookup_path with
    | error e =>
        exfalso
        rcases hpol with h | h | h | h <;> simp [get_policy, h] at hgp
    | ok pol =>
        have hm : main parseFailed c fp =
            (match fp with
             | FormPsetOutcome.cetError => MainOutcome.exit 4
             | FormPsetOutcome.otherError => MainOutcome.exit 5
             | FormPsetOutcome.success => MainOutcome.exit 0) := by
          simp [main, hok, hgp]
        cases fp <;> simp [hm]
  · intro opts hok hpol
    have h0 : ¬ opts.lookup_policy = 0 := fun h => hpol (Or.inl h)
    have h1 : ¬ opts.lookup_policy = 1 := fun h => hpol (Or.inr (Or.inl h))
    have h2 : ¬ opts.lookup_policy = 2 :=
      fun h => hpol (Or.inr (Or.inr (Or.inl h)))
    have h3 : ¬ opts.lookup_policy = 3 :=
      fun h => hpol (Or.inr (Or.inr (Or.inr h)))
    simp [main, hok, get_policy, h0, h1, h2, h3]

/-- Witness for C7 (amended): concrete invocations hitting each listed
exit code and the uncaught case. -/
theorem C7_witness :
    main false
        { help := true, configFile := none, outputFile := "",
          annotate := false, preAnnotate := false, quiet := false }
        FormPsetOutcome.success = MainOutcome.exit 1 ∧
    main true
        { help := false, configFile := some "in.fcl", outputFile := "",
          annotate := false, preAnnotate := false, quiet := false }
        FormPsetOutcome.success = MainOutcome.exit 2 ∧
    main false
        { help := false, configFile := none, outputFile := "",
          annotate := false, preAnnotate := false, quiet := false }
        FormPsetOutcome.success = MainOutcome.exit 3 ∧
    main false
        { help := false, configFile := some "in.fcl", outputFile := "",
          annotate := false, preAnnotate := false, quiet := false }
        FormPsetOutcome.cetError = MainOutcome.exit 4 ∧
    main false
        { help := false, configFile := some "in.fcl", outputFile := "",
          annotate := false, preAnnotate := false, quiet := false }
        FormPsetOutcome.otherError = MainOutcome.exit 5 ∧
    main false
        { help := false, configFile := some "in.fcl", outputFile := "",
          annotate := false, preAnnotate := false, quiet := false }
        FormPsetOutcome.success = MainOutcome.exit 0 := by
  refine ⟨?_, ?_, ?_, ?_, ?_, ?_⟩
  · exact (C7_exit_codes false
      { help := true, configFile := none, outputFile := "",
        annotate := false, preAnnotate := false, quiet := false }
      FormPsetOutcome.success).1 rfl rfl
  · exact (C7_exit_codes true
      { help := false, configFile := some "in.fcl", outputFile := "",
        annotate := false, preAnnotate := false, quiet := false }
      FormPsetOutcome.success).2.1 rfl
  · exact (C7_exit_codes false
      { help := false, configFile := none, outputFile := "",
        annotate := false, preAnnotate := false, quiet := false }
      FormPsetOutcome.success).2.2.2.1 rfl rfl rfl
  · exact ((C7_exit_codes false
      { help := false, configFile := some "in.fcl", outputFile := "",
        annotate := false, preAnnotate := false, quiet := false }
      FormPsetOutcome.cetError).2.2.2.2.1 _ rfl
      (Or.inr (Or.inl rfl))).2.1.mpr rfl
  · exact ((C7_exit_codes false
      { help := false, configFile := some "in.fcl", outputFile := "",
        annotate := false, preAnnotate := false, quiet := false }
      FormPsetOutcome.otherError).2.2.2.2.1 _ rfl
      (Or.inr (Or.inl rfl))).2.2.mpr rfl
  · exact ((C7_exit_codes false
      { help := false, configFile := some "in.fcl", outputFile := "",
        annotate := false, preAnnotate := false, quiet := false }
      FormPsetOutcome.success).2.2.2.2.1 _ rfl
      (Or.inr (Or.inl rfl))).1.mpr rfl

/-- C8: `get_policy` maps lookup-policy code 0 to `cet::filepath_maker`
(the identity policy), 1 to `cet::filepath_lookup` (env-var-based), 2 to
`cet::filepath_lookup_nonabsolute`, 3 to `cet::filepath_lookup_after1`,
and raises an error — returning no policy — for every code outside
{0, 1, 2, 3}. -/
theorem C8_policy_selection (code : Int) (p : String) :
    get_policy 0 p = Except.ok FilepathMaker.filepath_maker ∧
    get_policy 1 p = Except.ok (FilepathMaker.filepath_lookup p) ∧
    get_policy 2 p = Except.ok (FilepathMaker.filepath_lookup_nonabsolute p) ∧
    get_policy 3 p = Except.ok (FilepathMaker.filepath_lookup_after1 p) ∧
    (¬(code = 0 ∨ code = 1 ∨ code = 2 ∨ code = 3) →
      get_policy code p =
        Except.error ("Error: command line lookup-policy " ++
          toString code ++ " is unknown; choose 0, 1, 2, or 3\n")) := by
  refine ⟨rfl, rfl, rfl, rfl, ?_⟩
  intro h
  have h0 : ¬ code = 0 := fun hh => h (Or.inl hh)
  have h1 : ¬ code = 1 := fun hh => h (Or.inr (Or.inl hh))
  have h2 : ¬ code = 2 := fun hh => h (Or.inr (Or.inr (Or.inl hh)))
  have h3 : ¬ code = 3 := fun hh => h (Or.inr (Or.inr (Or.inr hh)))
  simp [get_policy, h0, h1, h2, h3]

/-- Witness for C8 at the concrete unknown code 7 and the known
code 2. -/
theorem C8_witness :
    get_policy 2 "FHICL_FILE_PATH" =
      Except.ok (FilepathMaker.filepath_lookup_nonabsolute "FHICL_FILE_PATH") ∧
    get_policy 7 "FHICL_FILE_PATH" =
      Except.error ("Error: command line lookup-policy " ++
        toString (7 : Int) ++ " is unknown; choose 0, 1, 2, or 3\n") :=
  ⟨(C8_policy_selection 7 "FHICL_FILE_PATH").2.2.1,
   (C8_policy_selection 7 "FHICL_FILE_PATH").2.2.2.2 (by decide)⟩

/-- Counterexample to C10 as stated: the command line
`fhicl-dump --help --quiet --annotate -c in.fcl` combines `--quiet` with
`--annotate`, yet `process_arguments` checks `--help` first
(`fhicl-dump.cc` line 149) and throws the `Help` exception: the process
exits with code 1, not with a configuration error and code 3. -/
theorem C10_counterexample :
    process_arguments false
        { help := true, configFile := some "in.fcl", outputFile := "",
          annotate := true, preAnnotate := false, quiet := true } =
      Except.error ErrCategory.help ∧
    main false
        { help := true, configFile := some "in.fcl", outputFile := "",
          annotate := true, preAnnotate := false, quiet := true }
        FormPsetOutcome.success = MainOutcome.exit 1 ∧
    MainOutcome.exit 1 ≠ MainOutcome.exit 3 := by
  refine ⟨rfl, rfl, by decide⟩

/-- C10 (amended): every command line that parses successfully, does not
request help, and combines `--quiet` with `--annotate` or
`--prefix-annotate`, or combines `--annotate` with `--prefix-annotate`,
makes argument processing raise a `Configuration` error, so the process
exits with code 3. -/
theorem C10_conflicting_flags (c : CmdLine) (hh : c.help = false)
    (hconf : (c.quiet && (c.annotate || c.preAnnotate) ||
      c.annotate && c.preAnnotate) = true) :
    process_arguments false c = Except.error ErrCategory.config ∧
    ∀ fp : FormPsetOutcome, main false c fp = MainOutcome.exit 3 := by
  have hpa : process_arguments false c = Except.error ErrCategory.config := by
    unfold process_arguments
    rw [hh]
    cases h1 : (c.quiet && (c.annotate || c.preAnnotate)) with
    | true => simp [h1]
    | false =>
        cases h2 : (c.annotate && c.preAnnotate) with
        | true => simp [h1, h2]
        | false => rw [h1, h2] at hconf; simp at hconf
  exact ⟨hpa, fun fp => by simp [main, hpa]⟩

/-- Witness for C10 (amended) at the concrete command line
`fhicl-dump --quiet --annotate -c in.fcl`. -/
theorem C10_witness :
    process_arguments false
        { help := false, configFile := some "in.fcl", outputFile := "",
          annotate := true, preAnnotate := false, quiet := true } =
      Except.error ErrCategory.config ∧
    main false
        { help := false, configFile := some "in.fcl", outputFile := "",
          annotate := true, preAnnotate := false, quiet := true }
        FormPsetOutcome.success = MainOutcome.exit 3 :=
  have h := C10_conflicting_flags
    { help := false, configFile := some "in.fcl", outputFile := "",
      annotate := true, preAnnotate := false, quiet := true } rfl (by decide)
  ⟨h.1, h.2 FormPsetOutcome.success⟩

end Fhicl
